import Mathlib

/-!
Shallow embedding of the auth component of the flask-tutorial repository
(`src/flaskr/auth.py` and the application factory in `src/flaskr/__init__.py`).

The `user` table is a list of rows; the signed-cookie session is an
association list of string keys to integer values (the code stores only the
key "user_id").  Each view is translated as a function from the ambient
state (table, session) and the submitted form fields to a `ViewResult`
recording the table after the request, the session after the request, the
flashed messages, the returned response, and how many SQL statements were
executed and committed during the request.  Only the POST branches are
modelled, since every claim is about POST handling (logout and the
per-request load are method-independent).
-/

namespace Flaskr

/-- A row of the `user` table: `user(id PK, username UNIQUE NOT NULL, password NOT NULL)`. -/
structure User where
  id : Nat
  username : String
  password : String
deriving DecidableEq, Repr

/-- The `user` table. -/
abbrev Table := List User

/-- The per-browser session: an association list of keys to integer values.
The code only ever stores the key "user_id". -/
abbrev Session := List (String × Nat)

/-- `session.get(k)`: first binding of `k`, if any. -/
def sessionGet (s : Session) (k : String) : Option Nat :=
  (s.find? (fun kv => kv.1 == k)).map (fun kv => kv.2)

/-- The return value of a view: `redirect(url_for(endpoint))` or
`render_template(template)`. -/
inductive Response where
  | redirect (endpoint : String)
  | render (template : String)
deriving DecidableEq, Repr

/-- Everything observable about one handled request. `executes` counts the
`db.execute` statements issued, `commits` the `db.commit` calls. -/
structure ViewResult where
  db : Table
  session : Session
  flashed : List String
  response : Response
  executes : Nat
  commits : Nat
deriving DecidableEq, Repr

/-- The id sqlite assigns to the next inserted row: one more than the
largest id in the table. -/
def nextId (db : Table) : Nat :=
  (db.map User.id).foldr max 0 + 1

/-- Modelled from the spec: `werkzeug.security.generate_password_hash` is an
external black box producing "a salted one-way hash of the plaintext
password, never the plaintext itself".  The model keeps the
`method$salt$hash` output shape of the library; the non-empty prefix makes the output
differ from the plaintext, and `check_password_hash` below is its exact
verifier, so the round-trip property of the pair holds. -/
def generate_password_hash (password : String) : String :=
  "pbkdf2:sha256$salt$" ++ password

/-- Modelled from the spec: `werkzeug.security.check_password_hash` "hashes
the submitted password in the same way as the stored hash and securely
compares them". -/
def check_password_hash (stored password : String) : Bool :=
  stored == "pbkdf2:sha256$salt$" ++ password

/-- The POST branch of the `register` view (`src/flaskr/auth.py`).
Validation: empty username, else empty password.  With no validation error,
the INSERT is attempted; a uniqueness violation (an existing row with the
same username) raises `db.IntegrityError`, caught and turned into the
"already registered" error; otherwise the row is committed and the view
redirects to `auth.login`.  Any error falls through to `flash(error)` and
re-rendering the form. -/
def register (db : Table) (sess : Session) (username password : String) : ViewResult :=
  let error : Option String :=
    if username = "" then some "Username is required"
    else if password = "" then some "Password is required"
    else none
  match error with
  | some e =>
      { db := db, session := sess, flashed := [e],
        response := Response.render "auth/register.html", executes := 0, commits := 0 }
  | none =>
      if db.any (fun u => u.username == username) then
        { db := db, session := sess,
          flashed := ["User " ++ username ++ " is already registered."],
          response := Response.render "auth/register.html", executes := 1, commits := 0 }
      else
        { db := db ++ [{ id := nextId db, username := username,
                         password := generate_password_hash password }],
          session := sess, flashed := [],
          response := Response.redirect "auth.login", executes := 1, commits := 1 }

/-- The POST branch of the `login` view (`src/flaskr/auth.py`).  One SELECT
by username (`fetchone`); no row means "Incorrect username.", a failed hash
check means "Incorrect password.", and with no error the session is cleared,
the id of the user stored as its sole value, and the view redirects to `index`.
Any error falls through to `flash(error)` and re-rendering the form. -/
def login (db : Table) (sess : Session) (username password : String) : ViewResult :=
  match db.find? (fun u => u.username == username) with
  | none =>
      { db := db, session := sess, flashed := ["Incorrect username."],
        response := Response.render "auth/login.html", executes := 1, commits := 0 }
  | some user =>
      if check_password_hash user.password password then
        { db := db, session := [("user_id", user.id)], flashed := [],
          response := Response.redirect "index", executes := 1, commits := 0 }
      else
        { db := db, session := sess, flashed := ["Incorrect password."],
          response := Response.render "auth/login.html", executes := 1, commits := 0 }

/-- The `before_app_request` hook `load_logged_in_user`
(`src/flaskr/auth.py`): returns the request-local `g.user` together with the
number of SQL statements issued.  No "user_id" in the session means an
anonymous request and zero queries; otherwise one SELECT by id (`fetchone`). -/
def load_logged_in_user (db : Table) (sess : Session) : Option User × Nat :=
  match sessionGet sess "user_id" with
  | none => (none, 0)
  | some uid => (db.find? (fun u => u.id == uid), 1)

/-- The `logout` view (`src/flaskr/auth.py`): `session.clear()` then a
redirect to `index`; the table is untouched and no SQL is issued. -/
def logout (db : Table) (sess : Session) : ViewResult :=
  { db := db, session := [], flashed := [],
    response := Response.redirect "index", executes := 0, commits := 0 }

/-- The arguments of one Python call: positional arguments then keyword
arguments (view arguments in this application are integers, e.g. a post id). -/
structure Args where
  pos : List Nat
  kw : List (String × Nat)
deriving DecidableEq, Repr

/-- The outcome of calling a Python view: a `TypeError` raised by the
call itself (signature mismatch), or the returned response. -/
inductive CallResult where
  | typeError
  | value (r : Response)
deriving DecidableEq, Repr

/-- The `login_required` decorator (`src/flaskr/auth.py`).  `wrapped_view`
is declared as `def wrapped_view(**kwargs)`, so a call with any positional
argument raises `TypeError`; otherwise, if the per-request load found no
user the wrapper redirects to `auth.login`, and else it calls
`view(**kwargs)` — the view receives the keyword arguments and no
positional ones. -/
def login_required (view : Args → CallResult) (guser : Option User) : Args → CallResult :=
  fun args =>
    if args.pos = [] then
      match guser with
      | none => CallResult.value (Response.redirect "auth.login")
      | some _ => view { pos := [], kw := args.kw }
    else CallResult.typeError

/-- A sample view that reports whether it received positional arguments. -/
def posView : Args → CallResult :=
  fun a => CallResult.value (Response.render (if a.pos = [] then "kw-only" else "with-pos"))

/-- A sample protected view returning a fixed page. -/
def gatedView : Args → CallResult :=
  fun _ => CallResult.value (Response.render "gated")

/-- Claim C1, as stated, is false: `wrapped_view` is declared with a
keyword-only signature `(**kwargs)`, so a call with a positional argument
raises `TypeError` instead of forwarding it to the wrapped view.  Here the
identity load did find a user, yet the wrapper does not invoke the wrapped
view with the positional argument 7 unchanged. -/
theorem login_required_positional_counterexample :
    login_required posView (some { id := 1, username := "alice", password := "h" })
        { pos := [7], kw := [] } = CallResult.typeError ∧
    posView { pos := [7], kw := [] } = CallResult.value (Response.render "with-pos") ∧
    login_required posView (some { id := 1, username := "alice", password := "h" })
        { pos := [7], kw := [] } ≠ posView { pos := [7], kw := [] } := by
  refine ⟨rfl, rfl, ?_⟩
  decide

/-- Claim C1 (amended): for calls carrying only keyword arguments, the view
produced by `login_required` redirects to the login view whenever the
per-request identity load found no user, and otherwise invokes the wrapped
view with the same keyword arguments; a call with any positional argument
is rejected with `TypeError`, since the wrapper accepts keyword arguments
only. -/
theorem login_required_gate_spec (view : Args → CallResult) (guser : Option User)
    (args : Args) :
    (args.pos = [] → guser = none →
      login_required view guser args = CallResult.value (Response.redirect "auth.login")) ∧
    (args.pos = [] → ∀ u, guser = some u →
      login_required view guser args = view { pos := [], kw := args.kw }) ∧
    (args.pos ≠ [] → login_required view guser args = CallResult.typeError) := by
  refine ⟨fun h hg => ?_, fun h u hg => ?_, fun h => ?_⟩
  · simp [login_required, h, hg]
  · simp [login_required, h, hg]
  · simp [login_required, h]

/-- Concrete instances of the three branches of `login_required_gate_spec`. -/
theorem login_required_gate_spec_witness :
    login_required gatedView none { pos := [], kw := [("id", 3)] }
      = CallResult.value (Response.redirect "auth.login") ∧
    login_required gatedView (some { id := 1, username := "alice", password := "h" })
        { pos := [], kw := [("id", 3)] }
      = gatedView { pos := [], kw := [("id", 3)] } ∧
    login_required gatedView (some { id := 1, username := "alice", password := "h" })
        { pos := [9], kw := [] } = CallResult.typeError :=
  ⟨(login_required_gate_spec gatedView none { pos := [], kw := [("id", 3)] }).1 rfl rfl,
   (login_required_gate_spec gatedView (some { id := 1, username := "alice", password := "h" })
      { pos := [], kw := [("id", 3)] }).2.1 rfl
      { id := 1, username := "alice", password := "h" } rfl,
   (login_required_gate_spec gatedView (some { id := 1, username := "alice", password := "h" })
      { pos := [9], kw := [] }).2.2 (by decide)⟩

/-- Claim C2: on a login POST, a missing user row flashes
"Incorrect username." and re-renders the form; a failed password check
flashes "Incorrect password." and re-renders the form; and only with
neither error is the prior session replaced by the sole entry holding the
id of the matched user, with a redirect to `index` and nothing flashed. -/
theorem login_spec (db : Table) (sess : Session) (username password : String) :
    (db.find? (fun r => r.username == username) = none →
      (login db sess username password).flashed = ["Incorrect username."] ∧
      (login db sess username password).response = Response.render "auth/login.html" ∧
      (login db sess username password).session = sess) ∧
    (∀ u, db.find? (fun r => r.username == username) = some u →
      check_password_hash u.password password = false →
      (login db sess username password).flashed = ["Incorrect password."] ∧
      (login db sess username password).response = Response.render "auth/login.html" ∧
      (login db sess username password).session = sess) ∧
    (∀ u, db.find? (fun r => r.username == username) = some u →
      check_password_hash u.password password = true →
      (login db sess username password).session = [("user_id", u.id)] ∧
      (login db sess username password).response = Response.redirect "index" ∧
      (login db sess username password).flashed = []) := by
  refine ⟨fun h => ?_, fun u h hc => ?_, fun u h hc => ?_⟩
  · simp [login, h]
  · simp [login, h, hc]
  · simp [login, h, hc]

/-- Correct credentials against a one-row table: the session becomes the
sole entry with the id of the matched user and the response redirects to
`index`. -/
theorem login_spec_witness :
    (login [{ id := 1, username := "alice", password := generate_password_hash "secret1" }]
        [("stale", 9)] "alice" "secret1").session = [("user_id", 1)] ∧
    (login [{ id := 1, username := "alice", password := generate_password_hash "secret1" }]
        [("stale", 9)] "alice" "secret1").response = Response.redirect "index" ∧
    (login [{ id := 1, username := "alice", password := generate_password_hash "secret1" }]
        [("stale", 9)] "alice" "secret1").flashed = [] :=
  (login_spec [{ id := 1, username := "alice", password := generate_password_hash "secret1" }]
      [("stale", 9)] "alice" "secret1").2.2
    { id := 1, username := "alice", password := generate_password_hash "secret1" } rfl rfl

/-- Claim C3: on a register POST, an empty username flashes
"Username is required" with no SQL statement issued and the table
unchanged; else an empty password flashes "Password is required", likewise
with no statement issued; else the insertion is attempted (one statement
issued). -/
theorem register_validation_spec (db : Table) (sess : Session) (username password : String) :
    (username = "" →
      (register db sess username password).flashed = ["Username is required"] ∧
      (register db sess username password).db = db ∧
      (register db sess username password).executes = 0) ∧
    (username ≠ "" → password = "" →
      (register db sess username password).flashed = ["Password is required"] ∧
      (register db sess username password).db = db ∧
      (register db sess username password).executes = 0) ∧
    (username ≠ "" → password ≠ "" →
      (register db sess username password).executes = 1) := by
  refine ⟨fun h => ?_, fun h hp => ?_, fun h hp => ?_⟩
  · simp [register, h]
  · simp [register, h, hp]
  · by_cases hd : db.any (fun u => u.username == username)
    · simp [register, h, hp, hd]
    · simp [register, h, hp, hd]

/-- Concrete instances: an empty username is rejected with no insertion;
valid fields reach the insertion attempt. -/
theorem register_validation_spec_witness :
    ((register [] [] "" "x").flashed = ["Username is required"] ∧
     (register [] [] "" "x").db = [] ∧
     (register [] [] "" "x").executes = 0) ∧
    (register [] [] "frank" "pw").executes = 1 :=
  ⟨(register_validation_spec [] [] "" "x").1 rfl,
   (register_validation_spec [] [] "frank" "pw").2.2 (by decide) (by decide)⟩

/-- Claim C4: a register POST whose username already has a row flashes
exactly "User {username} is already registered.", re-renders the form, and
leaves the table unchanged with nothing committed. -/
theorem register_duplicate_spec (db : Table) (sess : Session) (username password : String)
    (hu : username ≠ "") (hp : password ≠ "")
    (hdup : db.any (fun u => u.username == username) = true) :
    (register db sess username password).flashed
      = ["User " ++ username ++ " is already registered."] ∧
    (register db sess username password).response = Response.render "auth/register.html" ∧
    (register db sess username password).db = db ∧
    (register db sess username password).commits = 0 := by
  simp [register, hu, hp, hdup]

/-- Registering "bob" twice: the duplicate attempt flashes the message and
inserts nothing. -/
theorem register_duplicate_spec_witness :
    (register [{ id := 1, username := "bob", password := "h" }] [] "bob" "pw").flashed
      = ["User bob is already registered."] ∧
    (register [{ id := 1, username := "bob", password := "h" }] [] "bob" "pw").response
      = Response.render "auth/register.html" ∧
    (register [{ id := 1, username := "bob", password := "h" }] [] "bob" "pw").db
      = [{ id := 1, username := "bob", password := "h" }] ∧
    (register [{ id := 1, username := "bob", password := "h" }] [] "bob" "pw").commits = 0 :=
  register_duplicate_spec [{ id := 1, username := "bob", password := "h" }] [] "bob" "pw"
    (by decide) (by decide) rfl

/-- Claim C5: the per-request identity load resolves no user and issues
zero SQL statements when the session holds no user id; when it holds one,
it issues exactly one statement, the result is the lookup by that id, and
any user it attaches is a row of the table bearing that id. -/
theorem load_logged_in_user_spec (db : Table) (sess : Session) :
    (sessionGet sess "user_id" = none → load_logged_in_user db sess = (none, 0)) ∧
    (∀ uid, sessionGet sess "user_id" = some uid →
      load_logged_in_user db sess = (db.find? (fun u => u.id == uid), 1)) ∧
    (∀ uid u, sessionGet sess "user_id" = some uid →
      (load_logged_in_user db sess).1 = some u → u ∈ db ∧ u.id = uid) := by
  refine ⟨fun h => ?_, fun uid h => ?_, fun uid u h hu => ?_⟩
  · simp [load_logged_in_user, h]
  · simp [load_logged_in_user, h]
  · simp only [load_logged_in_user, h] at hu
    exact ⟨List.mem_of_find?_eq_some hu, by simpa using List.find?_some hu⟩

/-- Concrete instances: an anonymous session issues no query; a session
holding id 1 loads the row with id 1 in one query. -/
theorem load_logged_in_user_spec_witness :
    load_logged_in_user [{ id := 1, username := "gina", password := "h" }] [] = (none, 0) ∧
    load_logged_in_user [{ id := 1, username := "gina", password := "h" }] [("user_id", 1)]
      = (some { id := 1, username := "gina", password := "h" }, 1) :=
  ⟨(load_logged_in_user_spec [{ id := 1, username := "gina", password := "h" }] []).1 rfl,
   (load_logged_in_user_spec [{ id := 1, username := "gina", password := "h" }]
      [("user_id", 1)]).2.1 1 rfl⟩

/-- Claim C6: for every session state the logout view clears the session,
touches no table and issues no SQL statement, and redirects to `index`;
the identity load on the next request with the cleared session (against any
table) resolves no user. -/
theorem logout_spec (db db2 : Table) (sess : Session) :
    logout db sess
      = { db := db, session := [], flashed := [],
          response := Response.redirect "index", executes := 0, commits := 0 } ∧
    load_logged_in_user db2 (logout db sess).session = (none, 0) :=
  ⟨rfl, rfl⟩

/-- Claim C7: a register POST with valid fields and no existing row with
that username appends exactly one row, issues one statement and one
commit, redirects to the login view, and leaves the session unchanged. -/
theorem register_success_spec (db : Table) (sess : Session) (username password : String)
    (hu : username ≠ "") (hp : password ≠ "")
    (hnew : db.any (fun u => u.username == username) = false) :
    (register db sess username password).db
      = db ++ [{ id := nextId db, username := username,
                 password := generate_password_hash password }] ∧
    (register db sess username password).db.length = db.length + 1 ∧
    (register db sess username password).executes = 1 ∧
    (register db sess username password).commits = 1 ∧
    (register db sess username password).response = Response.redirect "auth.login" ∧
    (register db sess username password).session = sess := by
  simp [register, hu, hp, hnew]

/-- Registering "carol" against an empty table while an unrelated session
entry is present: one row appended, one commit, redirect to login, session
untouched. -/
theorem register_success_spec_witness :
    (register [] [("user_id", 7)] "carol" "pw").db
      = [{ id := 1, username := "carol", password := generate_password_hash "pw" }] ∧
    (register [] [("user_id", 7)] "carol" "pw").db.length = 1 ∧
    (register [] [("user_id", 7)] "carol" "pw").executes = 1 ∧
    (register [] [("user_id", 7)] "carol" "pw").commits = 1 ∧
    (register [] [("user_id", 7)] "carol" "pw").response = Response.redirect "auth.login" ∧
    (register [] [("user_id", 7)] "carol" "pw").session = [("user_id", 7)] :=
  register_success_spec [] [("user_id", 7)] "carol" "pw" (by decide) (by decide) rfl

/-- Claim C8: a successful registration stores exactly the one-way hash of
the submitted plaintext; that stored value differs from the plaintext and
password verification of the plaintext against it succeeds (the
`generate_password_hash` / `check_password_hash` round-trip). -/
theorem register_hash_roundtrip (db : Table) (sess : Session) (username password : String)
    (hu : username ≠ "") (hp : password ≠ "")
    (hnew : db.any (fun u => u.username == username) = false) :
    (register db sess username password).db
      = db ++ [{ id := nextId db, username := username,
                 password := generate_password_hash password }] ∧
    generate_password_hash password ≠ password ∧
    check_password_hash (generate_password_hash password) password = true := by
  refine ⟨by simp [register, hu, hp, hnew], ?_, ?_⟩
  · intro h
    have h2 := congrArg String.length h
    rw [generate_password_hash, String.length_append] at h2
    have h3 : ("pbkdf2:sha256$salt$" : String).length = 19 := rfl
    omega
  · simp [check_password_hash, generate_password_hash]

/-- Registering "dave" with password "hunter2": the stored value is the
hash, differs from "hunter2", and verifies against it. -/
theorem register_hash_roundtrip_witness :
    (register [] [] "dave" "hunter2").db
      = [{ id := 1, username := "dave", password := generate_password_hash "hunter2" }] ∧
    generate_password_hash "hunter2" ≠ "hunter2" ∧
    check_password_hash (generate_password_hash "hunter2") "hunter2" = true :=
  register_hash_roundtrip [] [] "dave" "hunter2" (by decide) (by decide) rfl

/-- Claim C9: a session holding a user id that matches no row makes the
identity load return no user (in one query) without raising, and any view
gated by `login_required` then redirects to the login view for every
keyword-only call. -/
theorem stale_session_spec (db : Table) (sess : Session) (uid : Nat)
    (hs : sessionGet sess "user_id" = some uid)
    (hmiss : ∀ u ∈ db, u.id ≠ uid) :
    load_logged_in_user db sess = (none, 1) ∧
    (∀ view kw, login_required view (load_logged_in_user db sess).1 { pos := [], kw := kw }
      = CallResult.value (Response.redirect "auth.login")) := by
  have hfind : db.find? (fun u => u.id == uid) = none := by
    apply List.find?_eq_none.mpr
    intro u hu
    simpa using hmiss u hu
  constructor
  · simp [load_logged_in_user, hs, hfind]
  · intro view kw
    simp [load_logged_in_user, hs, hfind, login_required]

/-- A session pointing at the absent id 42 resolves no user in one query. -/
theorem stale_session_spec_witness :
    load_logged_in_user [{ id := 1, username := "erin", password := "h" }]
      [("user_id", 42)] = (none, 1) :=
  (stale_session_spec [{ id := 1, username := "erin", password := "h" }]
    [("user_id", 42)] 42 rfl (by decide)).1

/-- Claim C10: a login POST that ends in an error (no matching row, or a
failed password check) leaves the session exactly as it was, re-renders
the login form, and issues no redirect. -/
theorem login_error_session_unchanged (db : Table) (sess : Session) (username password : String)
    (herr : db.find? (fun r => r.username == username) = none ∨
      ∃ u, db.find? (fun r => r.username == username) = some u ∧
        check_password_hash u.password password = false) :
    (login db sess username password).session = sess ∧
    (login db sess username password).response = Response.render "auth/login.html" ∧
    (∀ e, (login db sess username password).response ≠ Response.redirect e) := by
  rcases herr with h | ⟨u, h, hc⟩
  · simp [login, h]
  · simp [login, h, hc]

/-- A login attempt with an unknown username leaves the session entry
untouched and re-renders the form. -/
theorem login_error_session_unchanged_witness :
    (login [] [("user_id", 5)] "zoe" "pw").session = [("user_id", 5)] ∧
    (login [] [("user_id", 5)] "zoe" "pw").response = Response.render "auth/login.html" :=
  ⟨(login_error_session_unchanged [] [("user_id", 5)] "zoe" "pw" (Or.inl rfl)).1,
   (login_error_session_unchanged [] [("user_id", 5)] "zoe" "pw" (Or.inl rfl)).2.1⟩

end Flaskr
